import Mathlib

/-!
Verification of the lead-intake backend (`src/server.js`, with the earlier
iteration `src/unnamed/part_000` where a claim cites it).

The JavaScript code is shallowly embedded: request bodies are records of
optional strings (JS `undefined` is `none`, and JS string truthiness is
"non-empty"), the SQLite `leads` table is a list of rows plus the next
AUTOINCREMENT id, timestamps are naturals (ISO-8601 strings of successive
instants compare like their times), and `transporter.sendMail` is modelled by
the message value handed to it, with the success of each send an explicit
boolean parameter of the handler.
-/

set_option maxRecDepth 40000

namespace KC

/-- JS truthiness of a possibly-absent string: `undefined` and `""` are falsy. -/
def truthy : Option String → Bool
  | none => false
  | some s => !(decide (s = ""))

/-- JS `v || d` for a possibly-absent string `v`. -/
def jsOr (v : Option String) (d : String) : String :=
  if truthy v then v.getD "" else d

/-- The double-quote character `"` (named to keep character literals simple). -/
def quoteChar : Char := Char.ofNat 34

/-- The apostrophe character. -/
def aposChar : Char := Char.ofNat 39

/-- JS `s.replaceAll(pat, rep)` for a one-character pattern, on character lists.
Every call site in the source uses a one-character pattern. -/
def replaceAllC (pat : Char) (rep : List Char) : List Char → List Char
  | [] => []
  | c :: rest => (if c = pat then rep else [c]) ++ replaceAllC pat rep rest

/-- JS `s.replace(pat, rep)` with a string pattern: only the first occurrence
of `pat` (anywhere in the string, not only as a prefix) is replaced. -/
def replaceFirstL (pat rep : List Char) : List Char → List Char
  | [] => []
  | c :: rest =>
    if pat.isPrefixOf (c :: rest) then rep ++ (c :: rest).drop pat.length
    else c :: replaceFirstL pat rep rest

/-- String version of `replaceFirstL`. -/
def replaceFirst (pat rep s : String) : String :=
  ⟨replaceFirstL pat.data rep.data s.data⟩

/-- JS `String(pass).replace(/\s+/g, "")`: every whitespace character removed. -/
def stripWs (s : String) : String :=
  ⟨s.data.filter (fun c => !c.isWhitespace)⟩

/-- JS `String.prototype.trim`: whitespace removed from both ends. -/
def trimL (l : List Char) : List Char :=
  ((l.dropWhile Char.isWhitespace).reverse.dropWhile Char.isWhitespace).reverse

/-- One character of the regex class `[^\s@]`. -/
def emailChar (c : Char) : Bool :=
  !c.isWhitespace && !(decide (c = '@'))

/-- Match of `[^\s@]+\.[^\s@]{2,}` against the whole list `r`, all of whose
characters are already known to lie in `[^\s@]`: some dot sits at an index
`i ≥ 1` (non-empty part before it) with at least two characters after it. -/
def dotSplitOk (r : List Char) : Bool :=
  (List.range r.length).any
    (fun i => decide (r.getD i '@' = '.') && decide (1 ≤ i) && decide (i + 3 ≤ r.length))

/-- `isValidEmail`: the test `/^[^\s@]+@[^\s@]+\.[^\s@]{2,}$/.test(String(email || "").trim())`.
The string matches iff it has no whitespace, exactly one `@`, a non-empty part
before the `@`, and the part after the `@` splits as `B ++ "." ++ C` with `B`
non-empty and `C` of length at least 2. -/
def isValidEmail (email : String) : Bool :=
  let s := trimL email.data
  s.all (fun c => decide (c = '@') || emailChar c) &&
  decide (s.count '@' = 1) &&
  (match s.span (fun c => !(decide (c = '@'))) with
   | (a, _ :: r) => !a.isEmpty && dotSplitOk r
   | (_, []) => false)

/-- The entity encoding `escapeHtml` gives to a single character. -/
def entityOf (c : Char) : List Char :=
  if c = '&' then "&amp;".data
  else if c = '<' then "&lt;".data
  else if c = '>' then "&gt;".data
  else if c = quoteChar then "&quot;".data
  else if c = aposChar then "&#039;".data
  else [c]

/-- `escapeHtml` on character lists: the chain of five `replaceAll` calls
from the source, ampersand first. -/
def escapeHtmlL (l : List Char) : List Char :=
  replaceAllC aposChar "&#039;".data
    (replaceAllC quoteChar "&quot;".data
      (replaceAllC '>' "&gt;".data
        (replaceAllC '<' "&lt;".data
          (replaceAllC '&' "&amp;".data l))))

/-- `escapeHtml(s)` from `src/server.js`. -/
def escapeHtml (s : String) : String := ⟨escapeHtmlL s.data⟩

/-- `s.replaceAll("\n", "<br/>")` as used on escaped messages. -/
def nl2br (s : String) : String := ⟨replaceAllC '\n' "<br/>".data s.data⟩

/-- One row of the `leads` table. -/
structure Lead where
  id : Nat
  createdAt : Nat
  name : String
  email : String
  phone : String
  service : String
  message : String
  source : String
deriving Repr, DecidableEq

/-- The `leads` table: its rows plus the next AUTOINCREMENT id (initially 1). -/
structure LeadStore where
  rows : List Lead
  nextId : Nat
deriving Repr, DecidableEq

/-- The argument object of `insertLead`. -/
structure LeadPayload where
  name : String
  email : String
  phone : Option String
  service : String
  message : String
  source : Option String

/-- `insertLead(payload)`: appends one row with `createdAt` the current time,
`phone || ""` and `source || "unknown"`, and resolves with the new row's id. -/
def insertLead (st : LeadStore) (now : Nat) (p : LeadPayload) : LeadStore × Nat :=
  let row : Lead :=
    { id := st.nextId, createdAt := now, name := p.name, email := p.email,
      phone := jsOr p.phone "", service := p.service, message := p.message,
      source := jsOr p.source "unknown" }
  ({ rows := st.rows ++ [row], nextId := st.nextId + 1 }, st.nextId)

/-- `SELECT * FROM leads ORDER BY datetime(createdAt) DESC`. -/
def listAll (st : LeadStore) : List Lead :=
  List.insertionSort (fun a b => b.createdAt ≤ a.createdAt) st.rows

/-- `DELETE FROM leads WHERE id = ?` together with `this.changes`. -/
def deleteById (st : LeadStore) (i : Nat) : LeadStore × Nat :=
  ({ st with rows := st.rows.filter (fun r => !(decide (r.id = i))) },
   (st.rows.filter (fun r => decide (r.id = i))).length)

/-- A message handed to `transporter.sendMail`. -/
structure Mail where
  fromAddr : String
  toAddr : String
  subject : String
  body : String
  html : Bool
  replyTo : Option String
deriving Repr, DecidableEq

/-- The mail-related environment variables (absent variable = `none`;
`SMTP_PORT` is held as the number `Number(...)` produces). -/
structure MailEnv where
  SMTP_HOST : Option String
  SMTP_PORT : Option Nat
  SMTP_USER : Option String
  SMTP_PASS : Option String
  MAIL_TO : Option String
  MAIL_FROM : Option String
  BRAND_NAME : Option String

/-- The options object `getMailer` passes to `nodemailer.createTransport`. -/
structure Transport where
  host : String
  port : Nat
  secure : Bool
  requireTLS : Bool
  authUser : String
  authPass : String
deriving Repr, DecidableEq

/-- `getMailer()` from `src/server.js`: port defaults to 587, `null` when any
of host/port/user/pass is falsy, `secure` iff port 465, `requireTLS` iff port
587, and the password has all whitespace stripped. -/
def getMailer (env : MailEnv) : Option Transport :=
  let port := env.SMTP_PORT.getD 587
  if !truthy env.SMTP_HOST || decide (port = 0) || !truthy env.SMTP_USER
      || !truthy env.SMTP_PASS then
    none
  else
    some { host := env.SMTP_HOST.getD "", port := port,
           secure := decide (port = 465), requireTLS := decide (port = 587),
           authUser := env.SMTP_USER.getD "",
           authPass := stripWs (env.SMTP_PASS.getD "") }

/-- The plain-text body of the owner notification. -/
def ownerText (id : Nat) (name email : String) (phone : Option String)
    (service message : String) : String :=
  "Nieuwe offerte aanvraag (id: " ++ toString id ++ ")\n\nNaam: " ++ name ++
  "\nE-mail: " ++ email ++ "\nTelefoon: " ++ jsOr phone "-" ++
  "\n\nService: " ++ service ++ "\n\nBericht:\n" ++ message ++ "\n"

/-- `sendOwnerEmail`: modelled by the message it hands to `transporter.sendMail`
(plain text, `replyTo` set to the email of the customer). -/
def sendOwnerEmail (fromAddr toAddr : String) (id : Nat) (name email : String)
    (phone : Option String) (service message : String) : Mail :=
  { fromAddr := fromAddr, toAddr := toAddr,
    subject := "KC Detailing â€“ Offerte aanvraag: " ++ service,
    body := ownerText id name email phone service message,
    html := false, replyTo := some email }

/-- The HTML body built inside `sendCustomerConfirmation`. -/
def customerHtml (brand : String) (id : Nat) (name : String) (phone : Option String)
    (service message : String) : String :=
  "\n  <div style=\"font-family:Arial,sans-serif;line-height:1.55;color:#111\">\n" ++
  "    <h2 style=\"margin:0 0 12px\">We hebben je aanvraag ontvangen</h2>\n" ++
  "    <p style=\"margin:0 0 10px\">\n" ++
  "      Bedankt" ++ (if name = "" then "" else " " ++ escapeHtml name) ++
  ". We hebben je offerteaanvraag ontvangen en nemen zo snel mogelijk contact met je op.\n" ++
  "    </p>\n\n" ++
  "    <div style=\"border:1px solid #eee;border-radius:10px;padding:14px;margin:14px 0\">\n" ++
  "      <h3 style=\"margin:0 0 10px;font-size:16px\">Samenvatting</h3>\n" ++
  "      <table style=\"border-collapse:collapse;width:100%;font-size:14px\">\n" ++
  "        <tr><td style=\"padding:6px 0;width:160px\"><b>Referentie</b></td><td style=\"padding:6px 0\">#" ++
  toString id ++ "</td></tr>\n" ++
  "        <tr><td style=\"padding:6px 0\"><b>Dienst</b></td><td style=\"padding:6px 0\">" ++
  escapeHtml service ++ "</td></tr>\n        " ++
  (if truthy phone then
    "<tr><td style=\"padding:6px 0\"><b>Telefoon</b></td><td style=\"padding:6px 0\">" ++
    escapeHtml (phone.getD "") ++ "</td></tr>"
   else "") ++
  "\n      </table>\n\n      " ++
  (if message = "" then ""
   else "<p style=\"margin:10px 0 0\"><b>Opmerking:</b><br/>" ++
     nl2br (escapeHtml message) ++ "</p>") ++
  "\n    </div>\n\n" ++
  "    <p style=\"margin:0\">\n      Met vriendelijke groet,<br/>\n      <b>" ++
  escapeHtml brand ++ "</b>\n    </p>\n  </div>\n  "

/-- `sendCustomerConfirmation`: modelled by the message it hands to
`transporter.sendMail` (HTML body, sent to the address of the customer). -/
def sendCustomerConfirmation (fromAddr toAddr brand : String) (id : Nat)
    (name : String) (phone : Option String) (service message : String) : Mail :=
  { fromAddr := fromAddr, toAddr := toAddr,
    subject := "Bevestiging offerteaanvraag â€“ " ++ brand,
    body := customerHtml brand id name phone service message,
    html := true, replyTo := none }

/-- A parsed JSON request body (each field possibly absent). -/
structure LeadBody where
  name : Option String
  email : Option String
  phone : Option String
  service : Option String
  message : Option String
  source : Option String

/-- The JSON responses the intake handlers produce. -/
inductive Resp where
  /-- `{ok:true, id}` -/
  | ok (id : Nat)
  /-- `{ok:true, id, mailed:true, confirmationMailed:true}` -/
  | okMailed (id : Nat)
  /-- `{ok:true, id, mailed:true}` of part_000 -/
  | okMailedV0 (id : Nat)
  /-- status 400, `{ok:false, error}` -/
  | badRequest (error : String)
  /-- status 500, `{ok:false, error}` -/
  | serverError (error : String)
deriving Repr, DecidableEq

/-- The `POST /api/leads` handler of `src/server.js` (store only). The middle
component is the list of messages handed to the mail transport: this handler
never touches the mailer, so it is always `[]`. -/
def postApiLeads (st : LeadStore) (now : Nat) (b : LeadBody) :
    LeadStore × List Mail × Resp :=
  if !truthy b.name || !truthy b.email || !truthy b.service || !truthy b.message then
    (st, [], .badRequest "Missing fields")
  else if !isValidEmail (b.email.getD "") then
    (st, [], .badRequest "Invalid email")
  else
    let r := insertLead st now
      { name := b.name.getD "", email := b.email.getD "", phone := b.phone,
        service := b.service.getD "", message := b.message.getD "",
        source := b.source }
    (r.1, [], .ok r.2)

/-- `handleEmailLead` of `src/server.js` (store and notify). `ownerSendOk` and
`confirmSendOk` say whether the transport accepts each `sendMail` call; a
rejected send throws, so it is the last attempted message and the `catch`
answers 500 `"Email send failed"`. The middle component lists the messages
handed to the transport, in order. -/
def handleEmailLead (env : MailEnv) (ownerSendOk confirmSendOk : Bool)
    (st : LeadStore) (now : Nat) (b : LeadBody) : LeadStore × List Mail × Resp :=
  if !truthy b.name || !truthy b.email || !truthy b.service || !truthy b.message then
    (st, [], .badRequest "Missing fields")
  else if !isValidEmail (b.email.getD "") then
    (st, [], .badRequest "Invalid email")
  else
    let name := b.name.getD ""
    let email := b.email.getD ""
    let r := insertLead st now
      { name := name, email := email, phone := b.phone,
        service := b.service.getD "", message := b.message.getD "",
        source := some "email" }
    if !truthy env.MAIL_TO then (r.1, [], .serverError "MAIL_TO missing")
    else
      match getMailer env with
      | none => (r.1, [], .serverError "SMTP config missing")
      | some _ =>
        let fromAddr := jsOr env.MAIL_FROM (env.SMTP_USER.getD "")
        let brand := jsOr env.BRAND_NAME "KC Detailing Studio"
        let owner := sendOwnerEmail fromAddr (env.MAIL_TO.getD "") r.2 name email
          b.phone (b.service.getD "") (b.message.getD "")
        if !ownerSendOk then (r.1, [owner], .serverError "Email send failed")
        else
          let conf := sendCustomerConfirmation fromAddr email brand r.2 name
            b.phone (b.service.getD "") (b.message.getD "")
          if !confirmSendOk then (r.1, [owner, conf], .serverError "Email send failed")
          else (r.1, [owner, conf], .okMailed r.2)

/-- The token-bearing parts of an admin request. -/
structure AuthReq where
  authorization : Option String
  queryToken : Option String

/-- Outcome of `requireAdmin`: pass to the route, 401, or 500. -/
inductive AuthResult where
  | allowed
  | unauthorized
  | configError
deriving Repr, DecidableEq

/-- The token `requireAdmin` compares: the Authorization header with the first
occurrence of `"Bearer "` removed, or, when that is absent or empty, the
`token` query parameter. -/
def tokenOf (req : AuthReq) : Option String :=
  let bearer := req.authorization.map (replaceFirst "Bearer " "")
  if truthy bearer then bearer else req.queryToken

/-- `requireAdmin`: 500 when `ADMIN_TOKEN` is unconfigured, 401 unless the
provided token strictly equals it. -/
def requireAdmin (adminToken : String) (req : AuthReq) : AuthResult :=
  if adminToken = "" then .configError
  else if ¬ (tokenOf req = some adminToken) then .unauthorized
  else .allowed

end KC

namespace KC.Part000

/-- `getMailer()` from `src/unnamed/part_000`: same falsy-config check, but the
options passed to `nodemailer.createTransport` set only `secure` — `requireTLS`
is not given (nodemailer defaults it to `false`) and the password is used
exactly as supplied, with no whitespace stripping. -/
def getMailer (env : MailEnv) : Option Transport :=
  let port := env.SMTP_PORT.getD 587
  if !truthy env.SMTP_HOST || decide (port = 0) || !truthy env.SMTP_USER
      || !truthy env.SMTP_PASS then
    none
  else
    some { host := env.SMTP_HOST.getD "", port := port,
           secure := decide (port = 465), requireTLS := false,
           authUser := env.SMTP_USER.getD "",
           authPass := env.SMTP_PASS.getD "" }

/-- The `POST /api/leads` handler of `src/unnamed/part_000`: identical to the
later one except that it performs no email-format check at all. -/
def postApiLeads (st : LeadStore) (now : Nat) (b : LeadBody) :
    LeadStore × List Mail × Resp :=
  if !truthy b.name || !truthy b.email || !truthy b.service || !truthy b.message then
    (st, [], .badRequest "Missing fields")
  else
    let r := insertLead st now
      { name := b.name.getD "", email := b.email.getD "", phone := b.phone,
        service := b.service.getD "", message := b.message.getD "",
        source := b.source }
    (r.1, [], .ok r.2)

/-- The single message `sendLeadMail` hands to `transporter.sendMail`
(`from: MAIL_FROM || SMTP_USER`, `to: MAIL_TO`, `replyTo` the customer). -/
def sendLeadMail (env : MailEnv) (id : Nat) (name email : String)
    (phone : Option String) (service message : String) : Mail :=
  { fromAddr := jsOr env.MAIL_FROM (env.SMTP_USER.getD ""),
    toAddr := env.MAIL_TO.getD "",
    subject := "KC Detailing – Offerte aanvraag: " ++ service,
    body := ownerText id name email phone service message,
    html := false, replyTo := some email }

/-- `handleEmail` of `src/unnamed/part_000`: no email-format check, insert,
then `sendLeadMail` — which throws `"MAIL_TO missing"` or
`"SMTP config missing"` when unconfigured, both caught and answered as 500
with that message. Only one message is ever sent; a transport rejection is
answered 500 with the message of the transport error (kept abstract here as
`"Email send failed"`, the handler's fallback text). -/
def handleEmail (env : MailEnv) (ownerSendOk : Bool) (st : LeadStore) (now : Nat)
    (b : LeadBody) : LeadStore × List Mail × Resp :=
  if !truthy b.name || !truthy b.email || !truthy b.service || !truthy b.message then
    (st, [], .badRequest "Missing fields")
  else
    let r := insertLead st now
      { name := b.name.getD "", email := b.email.getD "", phone := b.phone,
        service := b.service.getD "", message := b.message.getD "",
        source := some "email" }
    if !truthy env.MAIL_TO then (r.1, [], .serverError "MAIL_TO missing")
    else
      match Part000.getMailer env with
      | none => (r.1, [], .serverError "SMTP config missing")
      | some _ =>
        let m := sendLeadMail env r.2 (b.name.getD "") (b.email.getD "") b.phone
          (b.service.getD "") (b.message.getD "")
        if ownerSendOk then (r.1, [m], .okMailedV0 r.2)
        else (r.1, [m], .serverError "Email send failed")

end KC.Part000

namespace KC

/-! ### Store lemmas -/

theorem mem_listAll {st : LeadStore} {a : Lead} : a ∈ listAll st ↔ a ∈ st.rows :=
  List.mem_insertionSort _

theorem length_listAll (st : LeadStore) : (listAll st).length = st.rows.length :=
  List.length_insertionSort _ _

/-! ### String-primitive lemmas -/

theorem isPrefixOf_append_self (p s : List Char) : p.isPrefixOf (p ++ s) = true := by
  induction p with
  | nil => cases s <;> rfl
  | cons a p ih => simp [List.isPrefixOf, ih]

theorem replaceFirstL_self (a : Char) (p r s : List Char) :
    replaceFirstL (a :: p) r (a :: (p ++ s)) = r ++ s := by
  have h1 : (a :: p).isPrefixOf (a :: (p ++ s)) = true :=
    isPrefixOf_append_self (a :: p) s
  simp only [replaceFirstL, h1, if_true]
  simp [List.drop_left]

theorem replaceFirst_bearer (secret : String) :
    replaceFirst "Bearer " "" ("Bearer " ++ secret) = secret := by
  show (⟨replaceFirstL "Bearer ".data [] ("Bearer " ++ secret).data⟩ : String) = secret
  have h : ("Bearer " ++ secret).data =
      'B' :: ("earer ".data ++ secret.data) := by
    cases secret with
    | mk d => rfl
  rw [h]
  have h2 : replaceFirstL ('B' :: "earer ".data) [] ('B' :: ("earer ".data ++ secret.data)) =
      [] ++ secret.data := replaceFirstL_self 'B' "earer ".data [] secret.data
  show (⟨replaceFirstL ('B' :: "earer ".data) [] ('B' :: ("earer ".data ++ secret.data))⟩ : String) = secret
  rw [h2]
  cases secret with
  | mk d => rfl

/-! ### C2: the access guard -/

/-- C2: `requireAdmin` allows a request iff the admin secret is configured
(non-empty) and the provided token — the Authorization header after Bearer
handling, else the `token` query parameter, as computed by `tokenOf` — equals
the secret exactly; an unconfigured secret denies every request with the
configuration error, and any mismatch (including an absent or empty provided
token) denies with the 401 authorization error. -/
theorem requireAdmin_spec (adminToken : String) (req : AuthReq) :
    (requireAdmin adminToken req = .allowed ↔
      (adminToken ≠ "" ∧ tokenOf req = some adminToken)) ∧
    (adminToken = "" → requireAdmin adminToken req = .configError) ∧
    (adminToken ≠ "" → tokenOf req ≠ some adminToken →
      requireAdmin adminToken req = .unauthorized) := by
  refine ⟨⟨?_, ?_⟩, ?_, ?_⟩
  · intro h
    by_cases h0 : adminToken = ""
    · simp [requireAdmin, h0] at h
    · by_cases h1 : tokenOf req = some adminToken
      · exact ⟨h0, h1⟩
      · simp [requireAdmin, h0, h1] at h
  · rintro ⟨h0, h1⟩
    simp [requireAdmin, h0, h1]
  · intro h0
    simp [requireAdmin, h0]
  · intro h0 h1
    simp [requireAdmin, h0, h1]

/-- Witness for C2 at a concrete secret and request. -/
theorem requireAdmin_spec_witness :
    (requireAdmin "s3cret" ⟨some "Bearer s3cret", none⟩ = .allowed ↔
      ("s3cret" ≠ "" ∧ tokenOf ⟨some "Bearer s3cret", none⟩ = some "s3cret")) ∧
    ("s3cret" = "" → requireAdmin "s3cret" ⟨some "Bearer s3cret", none⟩ = .configError) ∧
    ("s3cret" ≠ "" → tokenOf ⟨some "Bearer s3cret", none⟩ ≠ some "s3cret" →
      requireAdmin "s3cret" ⟨some "Bearer s3cret", none⟩ = .unauthorized) :=
  requireAdmin_spec "s3cret" ⟨some "Bearer s3cret", none⟩

/-! ### C9: Bearer handling of the access guard -/

/-- C9 counterexample: with the configured secret `"xBearer y"`, a request
whose Authorization header is exactly the bare secret (which does not start
with `"Bearer "`) is rejected 401 rather than allowed: the guard removes the
first occurrence of `"Bearer "` anywhere in the header, not only a prefix,
mangling the header to `"xy"`. -/
theorem requireAdmin_bare_secret_denied :
    requireAdmin "xBearer y" ⟨some "xBearer y", none⟩ = .unauthorized := by decide

/-- C9 (amended): the first occurrence of `"Bearer "` anywhere in the
Authorization header is removed (for a header of the form `"Bearer " ++ secret`
this strips the prefix); a header holding the bare secret is allowed provided
the secret itself does not contain `"Bearer "`; and a header that is exactly
`"Bearer "` behaves like an absent header, falling back to the `token` query
parameter. -/
theorem requireAdmin_bearer_handling (secret : String) (q : Option String)
    (hne : secret ≠ "")
    (hfree : replaceFirst "Bearer " "" secret = secret) :
    requireAdmin secret ⟨some ("Bearer " ++ secret), q⟩ = .allowed ∧
    requireAdmin secret ⟨some secret, q⟩ = .allowed ∧
    requireAdmin secret ⟨some "Bearer ", q⟩ = requireAdmin secret ⟨none, q⟩ := by
  have hb : replaceFirst "Bearer " "" ("Bearer " ++ secret) = secret :=
    replaceFirst_bearer secret
  have hbe : replaceFirst "Bearer " "" "Bearer " = "" := by decide
  refine ⟨?_, ?_, ?_⟩
  · simp [requireAdmin, tokenOf, hb, truthy, hne]
  · simp [requireAdmin, tokenOf, hfree, truthy, hne]
  · simp [requireAdmin, tokenOf, hbe, truthy]

/-- Witness for C9 at a concrete secret. -/
theorem requireAdmin_bearer_handling_witness :
    requireAdmin "s3cret2" ⟨some ("Bearer " ++ "s3cret2"), some "zz"⟩ = .allowed ∧
    requireAdmin "s3cret2" ⟨some "s3cret2", some "zz"⟩ = .allowed ∧
    requireAdmin "s3cret2" ⟨some "Bearer ", some "zz"⟩ =
      requireAdmin "s3cret2" ⟨none, some "zz"⟩ :=
  requireAdmin_bearer_handling "s3cret2" (some "zz") (by decide) (by decide)

/-! ### C3: missing fields -/

/-- C3: a submission in which any of name, email, service, message is absent
or empty is answered 400 `"Missing fields"` by both intake handlers of
`src/server.js`, the store is unchanged and no message is handed to the mail
transport — in particular `insertLead` is never invoked. -/
theorem missing_fields_no_insert (env : MailEnv) (oOk cOk : Bool)
    (st : LeadStore) (now : Nat) (b : LeadBody)
    (h : truthy b.name = false ∨ truthy b.email = false ∨
         truthy b.service = false ∨ truthy b.message = false) :
    postApiLeads st now b = (st, [], .badRequest "Missing fields") ∧
    handleEmailLead env oOk cOk st now b = (st, [], .badRequest "Missing fields") := by
  have hb : (!truthy b.name || !truthy b.email || !truthy b.service
      || !truthy b.message) = true := by
    rcases h with h | h | h | h <;> simp [h]
  constructor
  · simp [postApiLeads, hb]
  · simp [handleEmailLead, hb]

/-- Witness for C3: an empty message field is rejected and nothing is stored. -/
theorem missing_fields_no_insert_witness :
    postApiLeads ⟨[], 1⟩ 4 ⟨some "Ann", some "ann@example.com", none, some "wash", some "", none⟩ =
      (⟨[], 1⟩, [], .badRequest "Missing fields") ∧
    handleEmailLead ⟨none, none, none, none, none, none, none⟩ true true ⟨[], 1⟩ 4
        ⟨some "Ann", some "ann@example.com", none, some "wash", some "", none⟩ =
      (⟨[], 1⟩, [], .badRequest "Missing fields") :=
  missing_fields_no_insert ⟨none, none, none, none, none, none, none⟩ true true
    ⟨[], 1⟩ 4 ⟨some "Ann", some "ann@example.com", none, some "wash", some "", none⟩
    (by decide)

/-! ### C4: email-format validation -/

/-- C4 counterexample: the `POST /api/leads` handler of `src/unnamed/part_000`
performs no email-format check — the submission with email `"not-an-email"`
(which `isValidEmail` rejects) is inserted into the store and answered
`{ok:true, id:1}`, not a 400 validation failure. -/
theorem part000_accepts_invalid_email :
    isValidEmail "not-an-email" = false ∧
    Part000.postApiLeads ⟨[], 1⟩ 5
        ⟨some "x", some "not-an-email", none, some "y", some "z", none⟩ =
      (⟨[⟨1, 5, "x", "not-an-email", "", "y", "z", "unknown"⟩], 2⟩, [], .ok 1) := by
  constructor
  · decide
  · decide

/-- C4 (amended): in `src/server.js` (the latest iteration — the earliest
iteration `part_000` omits the check), an intake submission whose email field
fails `isValidEmail` is answered with a 400 validation failure (`"Missing
fields"` when a required field is also empty, otherwise `"Invalid email"`)
by both handlers, before any insert; `"a@b.co"` passes the check and
`"not-an-email"` fails it. -/
theorem invalid_email_rejected (env : MailEnv) (oOk cOk : Bool)
    (st : LeadStore) (now : Nat) (b : LeadBody)
    (hinv : isValidEmail (b.email.getD "") = false) :
    ((postApiLeads st now b).1 = st ∧ (postApiLeads st now b).2.1 = [] ∧
      ((postApiLeads st now b).2.2 = .badRequest "Missing fields" ∨
       (postApiLeads st now b).2.2 = .badRequest "Invalid email")) ∧
    ((handleEmailLead env oOk cOk st now b).1 = st ∧
      (handleEmailLead env oOk cOk st now b).2.1 = [] ∧
      ((handleEmailLead env oOk cOk st now b).2.2 = .badRequest "Missing fields" ∨
       (handleEmailLead env oOk cOk st now b).2.2 = .badRequest "Invalid email")) ∧
    isValidEmail "a@b.co" = true ∧ isValidEmail "not-an-email" = false := by
  by_cases hm : (!truthy b.name || !truthy b.email || !truthy b.service
      || !truthy b.message) = true
  · refine ⟨⟨?_, ?_, ?_⟩, ⟨?_, ?_, ?_⟩, by decide, by decide⟩ <;>
      simp [postApiLeads, handleEmailLead, hm]
  · rw [Bool.not_eq_true] at hm
    refine ⟨⟨?_, ?_, ?_⟩, ⟨?_, ?_, ?_⟩, by decide, by decide⟩ <;>
      simp [postApiLeads, handleEmailLead, hm, hinv]

/-- Witness for C4 (amended) at a concrete invalid submission. -/
theorem invalid_email_rejected_witness :
    ((postApiLeads ⟨[], 1⟩ 5 ⟨some "x", some "not-an-email", none, some "y", some "z", none⟩).1 = ⟨[], 1⟩ ∧
      (postApiLeads ⟨[], 1⟩ 5 ⟨some "x", some "not-an-email", none, some "y", some "z", none⟩).2.1 = [] ∧
      ((postApiLeads ⟨[], 1⟩ 5 ⟨some "x", some "not-an-email", none, some "y", some "z", none⟩).2.2 = .badRequest "Missing fields" ∨
       (postApiLeads ⟨[], 1⟩ 5 ⟨some "x", some "not-an-email", none, some "y", some "z", none⟩).2.2 = .badRequest "Invalid email")) ∧
    ((handleEmailLead ⟨none, none, none, none, none, none, none⟩ true true ⟨[], 1⟩ 5 ⟨some "x", some "not-an-email", none, some "y", some "z", none⟩).1 = ⟨[], 1⟩ ∧
      (handleEmailLead ⟨none, none, none, none, none, none, none⟩ true true ⟨[], 1⟩ 5 ⟨some "x", some "not-an-email", none, some "y", some "z", none⟩).2.1 = [] ∧
      ((handleEmailLead ⟨none, none, none, none, none, none, none⟩ true true ⟨[], 1⟩ 5 ⟨some "x", some "not-an-email", none, some "y", some "z", none⟩).2.2 = .badRequest "Missing fields" ∨
       (handleEmailLead ⟨none, none, none, none, none, none, none⟩ true true ⟨[], 1⟩ 5 ⟨some "x", some "not-an-email", none, some "y", some "z", none⟩).2.2 = .badRequest "Invalid email")) ∧
    isValidEmail "a@b.co" = true ∧ isValidEmail "not-an-email" = false :=
  invalid_email_rejected ⟨none, none, none, none, none, none, none⟩ true true
    ⟨[], 1⟩ 5 ⟨some "x", some "not-an-email", none, some "y", some "z", none⟩ (by decide)

/-! ### C10: verbatim source on the store-only endpoint -/

/-- C10: the store-only endpoint stores any truthy client-supplied `source`
verbatim (in particular the value `"email"`) while handing nothing to the
mail transport; a falsy or absent `source` defaults to `"unknown"`, and a
falsy or absent `phone` is stored as `""`. -/
theorem postApiLeads_source_verbatim (st : LeadStore) (now : Nat) (b : LeadBody)
    (hn : truthy b.name = true) (he : truthy b.email = true)
    (hs : truthy b.service = true) (hm : truthy b.message = true)
    (hv : isValidEmail (b.email.getD "") = true) :
    postApiLeads st now b =
      ({ rows := st.rows ++
          [{ id := st.nextId, createdAt := now, name := b.name.getD "",
             email := b.email.getD "", phone := jsOr b.phone "",
             service := b.service.getD "", message := b.message.getD "",
             source := jsOr b.source "unknown" }],
         nextId := st.nextId + 1 }, [], .ok st.nextId) ∧
    (truthy b.source = true → jsOr b.source "unknown" = b.source.getD "") ∧
    (truthy b.source = false → jsOr b.source "unknown" = "unknown") ∧
    (truthy b.phone = false → jsOr b.phone "" = "") := by
  have hg : (!truthy b.name || !truthy b.email || !truthy b.service
      || !truthy b.message) = false := by simp [hn, he, hs, hm]
  refine ⟨?_, ?_, ?_, ?_⟩
  · simp [postApiLeads, hg, hv, insertLead]
  · intro h; simp [jsOr, h]
  · intro h; simp [jsOr, h]
  · intro h; simp [jsOr, h]

/-- Witness for C10: a client-supplied `source` of `"email"` is stored
verbatim by the store-only endpoint, with no message handed to the mailer. -/
theorem postApiLeads_source_verbatim_witness :
    postApiLeads ⟨[], 1⟩ 9
        ⟨some "Ann", some "ann@example.com", none, some "wash", some "hi", some "email"⟩ =
      ({ rows :=
          [{ id := 1, createdAt := 9, name := "Ann", email := "ann@example.com",
             phone := jsOr none "", service := "wash", message := "hi",
             source := jsOr (some "email") "unknown" }],
         nextId := 2 }, [], .ok 1) ∧
    (truthy (some "email") = true → jsOr (some "email") "unknown" = "email") ∧
    (truthy (some "email") = false → jsOr (some "email") "unknown" = "unknown") ∧
    (truthy (none : Option String) = false → jsOr (none : Option String) "" = "") := by
  have h := postApiLeads_source_verbatim ⟨[], 1⟩ 9
    ⟨some "Ann", some "ann@example.com", none, some "wash", some "hi", some "email"⟩
    (by decide) (by decide) (by decide) (by decide) (by decide)
  exact ⟨h.1, fun _ => by decide, h.2.2.1, h.2.2.2⟩

/-! ### C7: deleteById -/

/-- C7: deleting the id just assigned by an insert removes exactly that row —
the deletion count is 1, `listAll` shrinks by exactly 1 and no longer holds
the id — while deleting an id matching no row returns the count 0 (not an
error) and leaves the store, hence `listAll`, unchanged. The hypothesis of
the first part is the AUTOINCREMENT invariant: every stored id is below the
next id. -/
theorem deleteById_spec :
    (∀ (st : LeadStore) (now : Nat) (p : LeadPayload),
      (∀ r ∈ st.rows, r.id < st.nextId) →
      (deleteById (insertLead st now p).1 (insertLead st now p).2).2 = 1 ∧
      (listAll (deleteById (insertLead st now p).1 (insertLead st now p).2).1).length + 1 =
        (listAll (insertLead st now p).1).length ∧
      ∀ r ∈ listAll (deleteById (insertLead st now p).1 (insertLead st now p).2).1,
        r.id ≠ (insertLead st now p).2) ∧
    (∀ (st : LeadStore) (i : Nat), (∀ r ∈ st.rows, r.id ≠ i) →
      deleteById st i = (st, 0)) := by
  constructor
  · intro st now p hinv
    have hf1 : st.rows.filter (fun r => !(decide (r.id = st.nextId))) = st.rows :=
      List.filter_eq_self.mpr (fun a ha => by simp [Nat.ne_of_lt (hinv a ha)])
    have hf2 : st.rows.filter (fun r => decide (r.id = st.nextId)) = [] :=
      List.filter_eq_nil_iff.mpr (fun a ha => by simp [Nat.ne_of_lt (hinv a ha)])
    refine ⟨?_, ?_, ?_⟩
    · simp [deleteById, insertLead, List.filter_append, hf2]
    · simp [deleteById, insertLead, List.filter_append, hf1, hf2, length_listAll]
    · intro r hr
      rw [mem_listAll] at hr
      simp only [deleteById, insertLead, List.filter_append, hf1] at hr ⊢
      simp at hr
      exact Nat.ne_of_lt (hinv r hr)
  · intro st i h
    have hf1 : st.rows.filter (fun r => !(decide (r.id = i))) = st.rows :=
      List.filter_eq_self.mpr (fun a ha => by simp [h a ha])
    have hf2 : st.rows.filter (fun r => decide (r.id = i)) = [] :=
      List.filter_eq_nil_iff.mpr (fun a ha => by simp [h a ha])
    simp [deleteById, hf1, hf2]

/-- Witness for C7 at a concrete one-row store. -/
theorem deleteById_spec_witness :
    ((deleteById
        (insertLead ⟨[⟨1, 10, "Ann", "a@b.co", "", "wash", "hi", "unknown"⟩], 2⟩ 11
          ⟨"Bo", "bo@c.de", none, "polish", "yo", none⟩).1
        (insertLead ⟨[⟨1, 10, "Ann", "a@b.co", "", "wash", "hi", "unknown"⟩], 2⟩ 11
          ⟨"Bo", "bo@c.de", none, "polish", "yo", none⟩).2).2 = 1 ∧
      (listAll (deleteById
        (insertLead ⟨[⟨1, 10, "Ann", "a@b.co", "", "wash", "hi", "unknown"⟩], 2⟩ 11
          ⟨"Bo", "bo@c.de", none, "polish", "yo", none⟩).1
        (insertLead ⟨[⟨1, 10, "Ann", "a@b.co", "", "wash", "hi", "unknown"⟩], 2⟩ 11
          ⟨"Bo", "bo@c.de", none, "polish", "yo", none⟩).2).1).length + 1 =
        (listAll (insertLead ⟨[⟨1, 10, "Ann", "a@b.co", "", "wash", "hi", "unknown"⟩], 2⟩ 11
          ⟨"Bo", "bo@c.de", none, "polish", "yo", none⟩).1).length ∧
      ∀ r ∈ listAll (deleteById
        (insertLead ⟨[⟨1, 10, "Ann", "a@b.co", "", "wash", "hi", "unknown"⟩], 2⟩ 11
          ⟨"Bo", "bo@c.de", none, "polish", "yo", none⟩).1
        (insertLead ⟨[⟨1, 10, "Ann", "a@b.co", "", "wash", "hi", "unknown"⟩], 2⟩ 11
          ⟨"Bo", "bo@c.de", none, "polish", "yo", none⟩).2).1,
        r.id ≠ (insertLead ⟨[⟨1, 10, "Ann", "a@b.co", "", "wash", "hi", "unknown"⟩], 2⟩ 11
          ⟨"Bo", "bo@c.de", none, "polish", "yo", none⟩).2) ∧
    deleteById ⟨[⟨1, 10, "Ann", "a@b.co", "", "wash", "hi", "unknown"⟩], 2⟩ 99 =
      (⟨[⟨1, 10, "Ann", "a@b.co", "", "wash", "hi", "unknown"⟩], 2⟩, 0) :=
  ⟨deleteById_spec.1 ⟨[⟨1, 10, "Ann", "a@b.co", "", "wash", "hi", "unknown"⟩], 2⟩ 11
      ⟨"Bo", "bo@c.de", none, "polish", "yo", none⟩ (by decide),
   deleteById_spec.2 ⟨[⟨1, 10, "Ann", "a@b.co", "", "wash", "hi", "unknown"⟩], 2⟩ 99
      (by decide)⟩

/-! ### C1: configuration error only after the insert -/

theorem getMailer_eq_none_of (env : MailEnv)
    (h : truthy env.SMTP_HOST = false ∨ truthy env.SMTP_USER = false ∨
         truthy env.SMTP_PASS = false) :
    getMailer env = none := by
  rcases h with h | h | h <;> simp [getMailer, h]

/-- C1: on a valid store-and-notify submission with incomplete notifier
configuration (`MAIL_TO` falsy, or any of SMTP host/user/password falsy),
`handleEmailLead` answers a 500 configuration error, but only after the lead
has been inserted: the final store is exactly the insert of the submission
(source `"email"`), the new lead appears in a subsequent `listAll`, and
`listAll` has grown by one. -/
theorem handleEmailLead_stores_before_config_error
    (env : MailEnv) (oOk cOk : Bool) (st : LeadStore) (now : Nat) (b : LeadBody)
    (hn : truthy b.name = true) (he : truthy b.email = true)
    (hs : truthy b.service = true) (hm : truthy b.message = true)
    (hv : isValidEmail (b.email.getD "") = true)
    (hcfg : truthy env.MAIL_TO = false ∨ truthy env.SMTP_HOST = false ∨
            truthy env.SMTP_USER = false ∨ truthy env.SMTP_PASS = false) :
    ((handleEmailLead env oOk cOk st now b).2.2 = .serverError "MAIL_TO missing" ∨
     (handleEmailLead env oOk cOk st now b).2.2 = .serverError "SMTP config missing") ∧
    (handleEmailLead env oOk cOk st now b).1 =
      (insertLead st now
        { name := b.name.getD "", email := b.email.getD "", phone := b.phone,
          service := b.service.getD "", message := b.message.getD "",
          source := some "email" }).1 ∧
    (∃ r ∈ listAll (handleEmailLead env oOk cOk st now b).1,
      r.id = st.nextId ∧ r.name = b.name.getD "" ∧ r.email = b.email.getD "" ∧
      r.service = b.service.getD "" ∧ r.message = b.message.getD "" ∧
      r.source = "email") ∧
    (listAll (handleEmailLead env oOk cOk st now b).1).length = st.rows.length + 1 := by
  have hg : (!truthy b.name || !truthy b.email || !truthy b.service
      || !truthy b.message) = false := by simp [hn, he, hs, hm]
  have key : ∃ msg, (msg = "MAIL_TO missing" ∨ msg = "SMTP config missing") ∧
      handleEmailLead env oOk cOk st now b =
        ((insertLead st now
          { name := b.name.getD "", email := b.email.getD "", phone := b.phone,
            service := b.service.getD "", message := b.message.getD "",
            source := some "email" }).1, [], .serverError msg) := by
    by_cases hmt : truthy env.MAIL_TO = true
    · have hnone : getMailer env = none := by
        rcases hcfg with h | h | h | h
        · rw [hmt] at h; exact absurd h (by simp)
        · exact getMailer_eq_none_of env (Or.inl h)
        · exact getMailer_eq_none_of env (Or.inr (Or.inl h))
        · exact getMailer_eq_none_of env (Or.inr (Or.inr h))
      exact ⟨"SMTP config missing", Or.inr rfl, by
        simp [handleEmailLead, hg, hv, hmt, hnone]⟩
    · rw [Bool.not_eq_true] at hmt
      exact ⟨"MAIL_TO missing", Or.inl rfl, by
        simp [handleEmailLead, hg, hv, hmt]⟩
  obtain ⟨msg, hmsg, heq⟩ := key
  rw [heq]
  refine ⟨?_, rfl, ?_, ?_⟩
  · rcases hmsg with h | h
    · exact Or.inl (by rw [h])
    · exact Or.inr (by rw [h])
  · refine
      ⟨{ id := st.nextId, createdAt := now, name := b.name.getD "",
         email := b.email.getD "", phone := jsOr b.phone "",
         service := b.service.getD "", message := b.message.getD "",
         source := jsOr (some "email") "unknown" },
       ?_, rfl, rfl, rfl, rfl, rfl, rfl⟩
    rw [mem_listAll]
    simp [insertLead]
  · simp [length_listAll, insertLead]

/-- Witness for C1: a valid submission against an entirely unconfigured
mail environment is answered 500 but the lead is stored and listed. -/
theorem handleEmailLead_stores_before_config_error_witness :
    ((handleEmailLead ⟨none, none, none, none, none, none, none⟩ true true ⟨[], 1⟩ 3
        ⟨some "Ann", some "ann@example.com", none, some "wash", some "please quote", none⟩).2.2 =
          .serverError "MAIL_TO missing" ∨
     (handleEmailLead ⟨none, none, none, none, none, none, none⟩ true true ⟨[], 1⟩ 3
        ⟨some "Ann", some "ann@example.com", none, some "wash", some "please quote", none⟩).2.2 =
          .serverError "SMTP config missing") ∧
    (handleEmailLead ⟨none, none, none, none, none, none, none⟩ true true ⟨[], 1⟩ 3
        ⟨some "Ann", some "ann@example.com", none, some "wash", some "please quote", none⟩).1 =
      (insertLead ⟨[], 1⟩ 3
        { name := (some "Ann").getD "", email := (some "ann@example.com").getD "",
          phone := none, service := (some "wash").getD "",
          message := (some "please quote").getD "", source := some "email" }).1 ∧
    (∃ r ∈ listAll (handleEmailLead ⟨none, none, none, none, none, none, none⟩ true true ⟨[], 1⟩ 3
        ⟨some "Ann", some "ann@example.com", none, some "wash", some "please quote", none⟩).1,
      r.id = 1 ∧ r.name = (some "Ann").getD "" ∧ r.email = (some "ann@example.com").getD "" ∧
      r.service = (some "wash").getD "" ∧ r.message = (some "please quote").getD "" ∧
      r.source = "email") ∧
    (listAll (handleEmailLead ⟨none, none, none, none, none, none, none⟩ true true ⟨[], 1⟩ 3
        ⟨some "Ann", some "ann@example.com", none, some "wash", some "please quote", none⟩).1).length =
      0 + 1 :=
  handleEmailLead_stores_before_config_error
    ⟨none, none, none, none, none, none, none⟩ true true ⟨[], 1⟩ 3
    ⟨some "Ann", some "ann@example.com", none, some "wash", some "please quote", none⟩
    (by decide) (by decide) (by decide) (by decide) (by decide) (by decide)

/-! ### C5: the two notification sends -/

/-- The owner notification `handleEmailLead` hands to the transport for a
given environment, store and body. -/
def ownerMailOf (env : MailEnv) (st : LeadStore) (b : LeadBody) : Mail :=
  sendOwnerEmail (jsOr env.MAIL_FROM (env.SMTP_USER.getD "")) (env.MAIL_TO.getD "")
    st.nextId (b.name.getD "") (b.email.getD "") b.phone
    (b.service.getD "") (b.message.getD "")

/-- The customer confirmation `handleEmailLead` hands to the transport for a
given environment, store and body. -/
def confMailOf (env : MailEnv) (st : LeadStore) (b : LeadBody) : Mail :=
  sendCustomerConfirmation (jsOr env.MAIL_FROM (env.SMTP_USER.getD ""))
    (b.email.getD "") (jsOr env.BRAND_NAME "KC Detailing Studio") st.nextId
    (b.name.getD "") b.phone (b.service.getD "") (b.message.getD "")

/-- A fully configured environment and a valid body for the concrete runs. -/
def envC5 : MailEnv :=
  ⟨some "smtp.example.com", some 587, some "user@example.com", some "pw",
   some "owner@example.com", some "noreply@example.com", none⟩

/-- A valid store-and-notify body for the concrete runs. -/
def bodyC5 : LeadBody :=
  ⟨some "Ann", some "ann@example.com", none, some "wash", some "please quote", none⟩

/-- C5 counterexample: with full mail configuration, when the transport
rejects the owner notification the customer confirmation is never attempted —
only one message (to the owner) is handed to the transport — and the owner
failure and the confirmation failure produce the same generic
`"Email send failed"` response, not distinct reports. -/
theorem handleEmailLead_not_both_attempted :
    (handleEmailLead envC5 false true ⟨[], 1⟩ 0 bodyC5).2.1.map Mail.toAddr =
      ["owner@example.com"] ∧
    (handleEmailLead envC5 false true ⟨[], 1⟩ 0 bodyC5).2.2 =
      .serverError "Email send failed" ∧
    (handleEmailLead envC5 true false ⟨[], 1⟩ 0 bodyC5).2.2 =
      .serverError "Email send failed" := by
  refine ⟨?_, ?_, ?_⟩ <;> rfl

/-- C5 (amended): with full configuration and a valid body, `handleEmailLead`
hands the owner notification to the transport first (reply-to set to the
customer email) and, only if that send succeeds, the customer confirmation
(to the customer address); when both succeed exactly these two messages are sent
and the response is the mailed success; a failed owner send stops after one
attempted message, and either failure is answered with the single generic
500 `"Email send failed"`. -/
theorem handleEmailLead_send_behavior
    (env : MailEnv) (st : LeadStore) (now : Nat) (b : LeadBody) (oOk cOk : Bool)
    (hn : truthy b.name = true) (he : truthy b.email = true)
    (hs : truthy b.service = true) (hm : truthy b.message = true)
    (hv : isValidEmail (b.email.getD "") = true)
    (hmt : truthy env.MAIL_TO = true)
    (htr : (getMailer env).isSome = true) :
    ((ownerMailOf env st b).replyTo = some (b.email.getD "") ∧
      (ownerMailOf env st b).toAddr = env.MAIL_TO.getD "" ∧
      (confMailOf env st b).toAddr = b.email.getD "") ∧
    (oOk = true → cOk = true →
      (handleEmailLead env oOk cOk st now b).2.1 =
        [ownerMailOf env st b, confMailOf env st b] ∧
      (handleEmailLead env oOk cOk st now b).2.2 = .okMailed st.nextId) ∧
    (oOk = false →
      (handleEmailLead env oOk cOk st now b).2.1 = [ownerMailOf env st b] ∧
      (handleEmailLead env oOk cOk st now b).2.2 = .serverError "Email send failed") ∧
    (oOk = true → cOk = false →
      (handleEmailLead env oOk cOk st now b).2.1 =
        [ownerMailOf env st b, confMailOf env st b] ∧
      (handleEmailLead env oOk cOk st now b).2.2 = .serverError "Email send failed") := by
  have hg : (!truthy b.name || !truthy b.email || !truthy b.service
      || !truthy b.message) = false := by simp [hn, he, hs, hm]
  obtain ⟨tr, htr'⟩ := Option.isSome_iff_exists.mp htr
  refine ⟨⟨rfl, rfl, rfl⟩, ?_, ?_, ?_⟩
  · rintro rfl rfl
    constructor <;>
      simp [handleEmailLead, hg, hv, hmt, htr', ownerMailOf, confMailOf, insertLead]
  · rintro rfl
    constructor <;>
      simp [handleEmailLead, hg, hv, hmt, htr', ownerMailOf, insertLead]
  · rintro rfl rfl
    constructor <;>
      simp [handleEmailLead, hg, hv, hmt, htr', ownerMailOf, confMailOf, insertLead]

/-- Witness for C5 (amended) at the concrete configured environment. -/
theorem handleEmailLead_send_behavior_witness :
    (((ownerMailOf envC5 ⟨[], 1⟩ bodyC5).replyTo = some ((some "ann@example.com").getD "") ∧
      (ownerMailOf envC5 ⟨[], 1⟩ bodyC5).toAddr = (some "owner@example.com").getD "" ∧
      (confMailOf envC5 ⟨[], 1⟩ bodyC5).toAddr = (some "ann@example.com").getD "") ∧
    (true = true → true = true →
      (handleEmailLead envC5 true true ⟨[], 1⟩ 0 bodyC5).2.1 =
        [ownerMailOf envC5 ⟨[], 1⟩ bodyC5, confMailOf envC5 ⟨[], 1⟩ bodyC5] ∧
      (handleEmailLead envC5 true true ⟨[], 1⟩ 0 bodyC5).2.2 = .okMailed 1) ∧
    (true = false →
      (handleEmailLead envC5 true true ⟨[], 1⟩ 0 bodyC5).2.1 = [ownerMailOf envC5 ⟨[], 1⟩ bodyC5] ∧
      (handleEmailLead envC5 true true ⟨[], 1⟩ 0 bodyC5).2.2 = .serverError "Email send failed") ∧
    (true = true → true = false →
      (handleEmailLead envC5 true true ⟨[], 1⟩ 0 bodyC5).2.1 =
        [ownerMailOf envC5 ⟨[], 1⟩ bodyC5, confMailOf envC5 ⟨[], 1⟩ bodyC5] ∧
      (handleEmailLead envC5 true true ⟨[], 1⟩ 0 bodyC5).2.2 = .serverError "Email send failed")) :=
  handleEmailLead_send_behavior envC5 ⟨[], 1⟩ 0 bodyC5 true true
    (by decide) (by decide) (by decide) (by decide) (by decide) (by decide) (by decide)

/-! ### C6: HTML escaping -/

theorem replaceAllC_append (p : Char) (r a b : List Char) :
    replaceAllC p r (a ++ b) = replaceAllC p r a ++ replaceAllC p r b := by
  induction a with
  | nil => rfl
  | cons c rest ih => simp [replaceAllC, ih]

theorem escapeHtmlL_cons (c : Char) (l : List Char) :
    escapeHtmlL (c :: l) = entityOf c ++ escapeHtmlL l := by
  have h0 : replaceAllC '&' "&amp;".data (c :: l) =
      (if c = '&' then "&amp;".data else [c]) ++ replaceAllC '&' "&amp;".data l := rfl
  unfold escapeHtmlL
  rw [h0, replaceAllC_append, replaceAllC_append, replaceAllC_append, replaceAllC_append]
  congr 1
  by_cases h1 : c = '&'
  · subst h1; rfl
  · rw [if_neg h1]
    by_cases h2 : c = '<'
    · subst h2; rfl
    · by_cases h3 : c = '>'
      · subst h3; rfl
      · by_cases h4 : c = quoteChar
        · subst h4; rfl
        · by_cases h5 : c = aposChar
          · subst h5; rfl
          · simp [replaceAllC, entityOf, h1, h2, h3, h4, h5]

theorem escapeHtmlL_eq (l : List Char) :
    escapeHtmlL l = (l.map entityOf).flatten := by
  induction l with
  | nil => rfl
  | cons c t ih => rw [escapeHtmlL_cons, ih, List.map_cons, List.flatten_cons]

/-- Substring occurrence: `pat` occurs contiguously in the list. -/
def isSub (pat : List Char) : List Char → Bool
  | [] => pat.isEmpty
  | c :: rest => pat.isPrefixOf (c :: rest) || isSub pat rest

theorem entityOf_no_raw (c : Char) :
    (entityOf c).all (fun d => !(decide (d = '<')) && !(decide (d = '>')) &&
      !(decide (d = quoteChar)) && !(decide (d = aposChar))) = true := by
  by_cases h1 : c = '&'
  · subst h1; decide
  · by_cases h2 : c = '<'
    · subst h2; decide
    · by_cases h3 : c = '>'
      · subst h3; decide
      · by_cases h4 : c = quoteChar
        · subst h4; decide
        · by_cases h5 : c = aposChar
          · subst h5; decide
          · simp [entityOf, h1, h2, h3, h4, h5]

/-- C6: `escapeHtml` is exactly the per-character entity encoding — every
occurrence of each of the five reserved characters is replaced by its entity
(ampersand handled first, so the ampersands of produced entities are never
re-escaped), the output holds no raw `<`, `>`, quote or apostrophe, and a
submitted message containing `<script>` appears in the generated customer
HTML only escaped, never as raw markup. -/
theorem escapeHtml_c6 :
    (∀ s : String, (escapeHtml s).data = (s.data.map entityOf).flatten) ∧
    (∀ s : String, (escapeHtml s).data.all
      (fun d => !(decide (d = '<')) && !(decide (d = '>')) &&
        !(decide (d = quoteChar)) && !(decide (d = aposChar))) = true) ∧
    escapeHtml "<script>" = "&lt;script&gt;" ∧
    isSub "<script>".data
      (customerHtml "KC Detailing Studio" 7 "Bob" none "wash"
        "hoi <script>alert(1)</script>").data = false ∧
    isSub "&lt;script&gt;".data
      (customerHtml "KC Detailing Studio" 7 "Bob" none "wash"
        "hoi <script>alert(1)</script>").data = true := by
  refine ⟨?_, ?_, rfl, rfl, rfl⟩
  · intro s
    exact escapeHtmlL_eq s.data
  · intro s
    rw [List.all_eq_true]
    intro d hd
    rw [show (escapeHtml s).data = escapeHtmlL s.data from rfl, escapeHtmlL_eq] at hd
    obtain ⟨sub, hsub, hdsub⟩ := List.mem_flatten.mp hd
    obtain ⟨c0, _, rfl⟩ := List.mem_map.mp hsub
    have h := entityOf_no_raw c0
    rw [List.all_eq_true] at h
    exact h d hdsub

/-! ### C8: port-based transport security -/

/-- The stripped password contains no whitespace at all. -/
theorem stripWs_no_ws (s : String) :
    (stripWs s).data.all (fun c => !c.isWhitespace) = true := by
  rw [List.all_eq_true]
  intro c hc
  rw [show (stripWs s).data = s.data.filter (fun c => !c.isWhitespace) from rfl] at hc
  exact (List.mem_filter.mp hc).2

/-- The environment for the C8 runs: port 587, password with a space. -/
def envC8 : MailEnv :=
  ⟨some "smtp.example.com", some 587, some "user", some "a b", none, none, none⟩

/-- C8 counterexample: the `getMailer` of `src/unnamed/part_000` at port 587
yields a transport that does not require STARTTLS and authenticates with the
password exactly as supplied — `"a b"`, whitespace kept — contradicting the
claimed upgrade-to-encryption at 587 and whitespace stripping. -/
theorem part000_getMailer_no_starttls :
    (Part000.getMailer envC8).map (fun t => (t.requireTLS, t.authPass)) =
      some (false, "a b") := by decide

/-- C8 (amended): in `src/server.js` (and the later iterations — the earliest
iteration `part_000` neither sets `requireTLS` nor strips the password), any
transport `getMailer` builds is secure exactly when the port is 465, requires
STARTTLS exactly when the port is 587, and authenticates with the configured
password with all whitespace (in particular all internal whitespace)
stripped. -/
theorem getMailer_spec (env : MailEnv) (tr : Transport)
    (h : getMailer env = some tr) :
    (tr.secure = true ↔ tr.port = 465) ∧
    (tr.requireTLS = true ↔ tr.port = 587) ∧
    tr.authPass = stripWs (env.SMTP_PASS.getD "") ∧
    tr.authPass.data.all (fun c => !c.isWhitespace) = true := by
  dsimp only [getMailer] at h
  split at h
  · exact absurd h (by simp)
  · have h2 : tr =
        { host := env.SMTP_HOST.getD "", port := env.SMTP_PORT.getD 587,
          secure := decide (env.SMTP_PORT.getD 587 = 465),
          requireTLS := decide (env.SMTP_PORT.getD 587 = 587),
          authUser := env.SMTP_USER.getD "",
          authPass := stripWs (env.SMTP_PASS.getD "") } :=
      (Option.some.inj h).symm
    subst h2
    refine ⟨by simp, by simp, rfl, stripWs_no_ws _⟩

/-- A concrete port-465 environment with a password containing internal
whitespace, and the transport `getMailer` builds for it. -/
def envC8b : MailEnv :=
  ⟨some "smtp.example.net", some 465, some "u", some "a b", none, none, none⟩

/-- The transport `getMailer` builds for `envC8b`. -/
def trC8 : Transport :=
  { host := "smtp.example.net", port := 465, secure := true, requireTLS := false,
    authUser := "u", authPass := "ab" }

/-- Witness for C8 (amended) at a concrete port-465 environment with a
password containing internal whitespace. -/
theorem getMailer_spec_witness :
    (trC8.secure = true ↔ trC8.port = 465) ∧
    (trC8.requireTLS = true ↔ trC8.port = 587) ∧
    trC8.authPass = stripWs (envC8b.SMTP_PASS.getD "") ∧
    trC8.authPass.data.all (fun c => !c.isWhitespace) = true :=
  getMailer_spec envC8b trC8 (by decide)
